import Mathlib

/-!
Verification of the dcprov repository (a CLI client for the DRACOON
provisioning API) against its natural-language specification.

The Rust sources are shallowly embedded: each pure decision (status-code
dispatch, URL/query assembly, credential-store logic, the session bootstrap)
becomes an executable Lean function translated from the corresponding Rust
function.  External collaborators (the reqwest HTTP transport, the url crate
parser, the keytar secret store, stdin) are modelled as explicit parameters or
as a small state record, so every function stays total and executable.
-/

/-! ## Error taxonomy (src/provisioning.rs, lines 326-361) -/

/-- Embedding of `reqwest::Error` (external transport/serialization error);
its payload is opaque to the client, so it is modelled as a tag string. -/
structure ReqwestError where
  msg : String
deriving DecidableEq, Repr

/-- Embedding of `url::ParseError` (external URL parser error). -/
structure UrlParseErr where
  msg : String
deriving DecidableEq, Repr

/-- `DRACOONErrorResponse` (src/provisioning.rs, lines 326-333): the decoded
standard error body with fields code, message, debugInfo, errorCode. -/
structure DRACOONErrorResponse where
  code : Int
  message : String
  debug_info : Option String
  error_code : Option Int
deriving DecidableEq, Repr

/-- `DRACOONProvisioningError` (src/provisioning.rs, lines 335-349).
The spec calls `RequestFailed` the `TransportFailure` variant and
`InvalidUrl` the malformed-URL variant. -/
inductive DRACOONProvisioningError where
  | RequestFailed (e : ReqwestError)
  | InvalidUrl (e : UrlParseErr)
  | Unauthorized (body : Option DRACOONErrorResponse)
  | BadRequest (body : DRACOONErrorResponse)
  | Forbidden (body : DRACOONErrorResponse)
  | NotFound (body : DRACOONErrorResponse)
  | PaymentRequired (body : DRACOONErrorResponse)
  | NotAcceptable (body : DRACOONErrorResponse)
  | Conflict (body : DRACOONErrorResponse)
  | Undocumented (body : DRACOONErrorResponse)
  | InvalidAccount
deriving DecidableEq, Repr

/-- `response.json::<DRACOONErrorResponse>().await?` in an error branch:
on a successful decode apply the variant constructor, on a decode failure
the `?` operator converts the `reqwest::Error` through
`From<reqwest::Error> for DRACOONProvisioningError` (src/provisioning.rs,
lines 351-355) into `RequestFailed`. -/
def errTo (ctor : DRACOONErrorResponse → DRACOONProvisioningError) :
    Except ReqwestError DRACOONErrorResponse → DRACOONProvisioningError
  | .ok b => ctor b
  | .error e => .RequestFailed e

/-- `response.json::<T>().await?` in the success branch of an operation. -/
def okTo {α : Type} : Except ReqwestError α → Except DRACOONProvisioningError α
  | .ok v => .ok v
  | .error e => .error (.RequestFailed e)

/-! ## Status dispatch of each client operation (src/provisioning.rs)

Each public operation ends in one `match response.status()` block.  The
blocks are embedded one-to-one, with the match arms in source order.  The
decode of the success payload (`okBody`, of the operation's payload type `α`)
and of the error body (`errBody`) are passed in as `Except` values, standing
for `response.json::<T>()` of the already-received response. -/

/-- Status dispatch of `get_customers` (src/provisioning.rs, lines 434-461):
arms OK, NOT_FOUND, BAD_REQUEST, UNAUTHORIZED, NOT_ACCEPTABLE, then a
catch-all producing `Undocumented`. -/
def handle_get_customers {α : Type} (status : Nat)
    (okBody : Except ReqwestError α)
    (errBody : Except ReqwestError DRACOONErrorResponse) :
    Except DRACOONProvisioningError α :=
  if status = 200 then okTo okBody
  else if status = 404 then .error (errTo .NotFound errBody)
  else if status = 400 then .error (errTo .BadRequest errBody)
  else if status = 401 then .error (errTo (fun b => .Unauthorized (some b)) errBody)
  else if status = 406 then .error (errTo .NotAcceptable errBody)
  else .error (errTo .Undocumented errBody)

/-- Status dispatch of `create_customer` (src/provisioning.rs, lines 480-517):
arms CREATED, PAYMENT_REQUIRED, NOT_FOUND, BAD_REQUEST, UNAUTHORIZED,
NOT_ACCEPTABLE, CONFLICT, catch-all `Undocumented`. -/
def handle_create_customer {α : Type} (status : Nat)
    (okBody : Except ReqwestError α)
    (errBody : Except ReqwestError DRACOONErrorResponse) :
    Except DRACOONProvisioningError α :=
  if status = 201 then okTo okBody
  else if status = 402 then .error (errTo .PaymentRequired errBody)
  else if status = 404 then .error (errTo .NotFound errBody)
  else if status = 400 then .error (errTo .BadRequest errBody)
  else if status = 401 then .error (errTo (fun b => .Unauthorized (some b)) errBody)
  else if status = 406 then .error (errTo .NotAcceptable errBody)
  else if status = 409 then .error (errTo .Conflict errBody)
  else .error (errTo .Undocumented errBody)

/-- Status dispatch of `get_customer` (src/provisioning.rs, lines 548-575):
arms OK, NOT_FOUND, BAD_REQUEST, UNAUTHORIZED, NOT_ACCEPTABLE, catch-all. -/
def handle_get_customer {α : Type} (status : Nat)
    (okBody : Except ReqwestError α)
    (errBody : Except ReqwestError DRACOONErrorResponse) :
    Except DRACOONProvisioningError α :=
  if status = 200 then okTo okBody
  else if status = 404 then .error (errTo .NotFound errBody)
  else if status = 400 then .error (errTo .BadRequest errBody)
  else if status = 401 then .error (errTo (fun b => .Unauthorized (some b)) errBody)
  else if status = 406 then .error (errTo .NotAcceptable errBody)
  else .error (errTo .Undocumented errBody)

/-- Status dispatch of `update_customer` (src/provisioning.rs, lines 598-630):
arms OK, PAYMENT_REQUIRED, NOT_FOUND, BAD_REQUEST, UNAUTHORIZED,
NOT_ACCEPTABLE, catch-all (no CONFLICT arm). -/
def handle_update_customer {α : Type} (status : Nat)
    (okBody : Except ReqwestError α)
    (errBody : Except ReqwestError DRACOONErrorResponse) :
    Except DRACOONProvisioningError α :=
  if status = 200 then okTo okBody
  else if status = 402 then .error (errTo .PaymentRequired errBody)
  else if status = 404 then .error (errTo .NotFound errBody)
  else if status = 400 then .error (errTo .BadRequest errBody)
  else if status = 401 then .error (errTo (fun b => .Unauthorized (some b)) errBody)
  else if status = 406 then .error (errTo .NotAcceptable errBody)
  else .error (errTo .Undocumented errBody)

/-- Status dispatch of `delete_customer` (src/provisioning.rs, lines 649-676):
arms NO_CONTENT (returns unit, no payload decode), NOT_FOUND, BAD_REQUEST,
UNAUTHORIZED, NOT_ACCEPTABLE, catch-all. -/
def handle_delete_customer (status : Nat)
    (errBody : Except ReqwestError DRACOONErrorResponse) :
    Except DRACOONProvisioningError Unit :=
  if status = 204 then .ok ()
  else if status = 404 then .error (errTo .NotFound errBody)
  else if status = 400 then .error (errTo .BadRequest errBody)
  else if status = 401 then .error (errTo (fun b => .Unauthorized (some b)) errBody)
  else if status = 406 then .error (errTo .NotAcceptable errBody)
  else .error (errTo .Undocumented errBody)

/-- Status dispatch of `get_customer_attributes` (src/provisioning.rs,
lines 721-748): arms OK, NOT_FOUND, BAD_REQUEST, UNAUTHORIZED,
NOT_ACCEPTABLE, catch-all. -/
def handle_get_customer_attributes {α : Type} (status : Nat)
    (okBody : Except ReqwestError α)
    (errBody : Except ReqwestError DRACOONErrorResponse) :
    Except DRACOONProvisioningError α :=
  if status = 200 then okTo okBody
  else if status = 404 then .error (errTo .NotFound errBody)
  else if status = 400 then .error (errTo .BadRequest errBody)
  else if status = 401 then .error (errTo (fun b => .Unauthorized (some b)) errBody)
  else if status = 406 then .error (errTo .NotAcceptable errBody)
  else .error (errTo .Undocumented errBody)

/-- Status dispatch of `update_customer_attributes` (src/provisioning.rs,
lines 772-799): arms OK, NOT_FOUND, BAD_REQUEST, UNAUTHORIZED,
NOT_ACCEPTABLE, catch-all. -/
def handle_update_customer_attributes {α : Type} (status : Nat)
    (okBody : Except ReqwestError α)
    (errBody : Except ReqwestError DRACOONErrorResponse) :
    Except DRACOONProvisioningError α :=
  if status = 200 then okTo okBody
  else if status = 404 then .error (errTo .NotFound errBody)
  else if status = 400 then .error (errTo .BadRequest errBody)
  else if status = 401 then .error (errTo (fun b => .Unauthorized (some b)) errBody)
  else if status = 406 then .error (errTo .NotAcceptable errBody)
  else .error (errTo .Undocumented errBody)

/-- Status dispatch of `get_customer_users` (src/provisioning.rs,
lines 844-871): arms OK, NOT_FOUND, BAD_REQUEST, UNAUTHORIZED,
NOT_ACCEPTABLE, catch-all. -/
def handle_get_customer_users {α : Type} (status : Nat)
    (okBody : Except ReqwestError α)
    (errBody : Except ReqwestError DRACOONErrorResponse) :
    Except DRACOONProvisioningError α :=
  if status = 200 then okTo okBody
  else if status = 404 then .error (errTo .NotFound errBody)
  else if status = 400 then .error (errTo .BadRequest errBody)
  else if status = 401 then .error (errTo (fun b => .Unauthorized (some b)) errBody)
  else if status = 406 then .error (errTo .NotAcceptable errBody)
  else .error (errTo .Undocumented errBody)

/-! ## Client construction (src/provisioning.rs, lines 17-42 and 363-383) -/

/-- The client record `DRACOONProvisioning` (src/provisioning.rs,
lines 44-48); the `http: Client` handle is an external resource and is not
part of the embedded state. -/
structure DRACOONProvisioning where
  base_url : String
  x_sds_service_token : String
deriving DecidableEq, Repr

/-- `check_token_validity` (src/provisioning.rs, lines 17-42): issues one
list-customers call with limit=1 and returns `Ok(true)` exactly on HTTP 200,
`Ok(false)` on any other received status; a transport failure of the send is
converted by `?` into `RequestFailed`.  `sendResult` stands for the outcome
of `http.get(...).send().await`: the received status code or the transport
error. -/
def check_token_validity (sendResult : Except ReqwestError Nat) :
    Except DRACOONProvisioningError Bool :=
  match sendResult with
  | .error e => .error (.RequestFailed e)
  | .ok status => if status = 200 then .ok true else .ok false

/-- `DRACOONProvisioning::new` (src/provisioning.rs, lines 364-383):
parses the base URL (the external url crate parser is passed in as
`urlParse`, returning the parsed form or a failure), runs the token
validity pre-check, and either yields the client holding the parsed base
URL and the service token, or fails with `Unauthorized(None)` when the
pre-check reports an invalid token, propagating pre-check transport errors
unchanged. -/
def DRACOONProvisioning.new (urlParse : String → Option String)
    (base_url service_token : String)
    (sendResult : Except ReqwestError Nat) :
    Except DRACOONProvisioningError DRACOONProvisioning :=
  match urlParse base_url with
  | none => .error (.InvalidUrl ⟨base_url⟩)
  | some parsed =>
    match check_token_validity sendResult with
    | .error e => .error e
    | .ok true => .ok ⟨parsed, service_token⟩
    | .ok false => .error (.Unauthorized none)

/-! ## C3: construction fails with Unauthorized(None) exactly on non-200 -/

/-- C3: when the base URL parses, construction succeeds (yielding the client
holding the parsed base URL and the token) precisely when the pre-check
receives HTTP 200, and fails with `Unauthorized(None)` on every other
received status. -/
theorem c3_new_precheck (urlParse : String → Option String)
    (base token parsed : String) (status : Nat)
    (hp : urlParse base = some parsed) :
    (DRACOONProvisioning.new urlParse base token (.ok status) =
        .ok ⟨parsed, token⟩ ↔ status = 200) ∧
    (status ≠ 200 →
      DRACOONProvisioning.new urlParse base token (.ok status) =
        .error (.Unauthorized none)) := by
  by_cases h : status = 200 <;>
    simp [DRACOONProvisioning.new, check_token_validity, hp, h]

/-- Witness for C3 at a concrete URL, token and the statuses 200 and 401. -/
theorem c3_witness :
    DRACOONProvisioning.new (fun s => some s) "https://dracoon.team/" "tok"
        (.ok 200) = .ok ⟨"https://dracoon.team/", "tok"⟩ ∧
    DRACOONProvisioning.new (fun s => some s) "https://dracoon.team/" "tok"
        (.ok 401) = .error (.Unauthorized none) :=
  ⟨(c3_new_precheck (fun s => some s) "https://dracoon.team/" "tok"
      "https://dracoon.team/" 200 rfl).1.mpr rfl,
   (c3_new_precheck (fun s => some s) "https://dracoon.team/" "tok"
      "https://dracoon.team/" 401 rfl).2 (by decide)⟩

/-! ## C1: status-to-error mapping of the public operations -/

/-- C1 counterexample: `get_customers` maps HTTP 403 to `Undocumented`,
not to the `Forbidden` variant the claim requires (no operation in
src/provisioning.rs has a FORBIDDEN arm). -/
theorem c1_counterexample :
    handle_get_customers 403 (Except.ok ())
        (.ok ⟨1, "forbidden", none, none⟩) =
      .error (.Undocumented ⟨1, "forbidden", none, none⟩) ∧
    DRACOONProvisioningError.Undocumented ⟨1, "forbidden", none, none⟩ ≠
      .Forbidden ⟨1, "forbidden", none, none⟩ :=
  ⟨rfl, by decide⟩

/-- C1 amended: with a decoded error body, every operation maps
400 to BadRequest, 401 to Unauthorized (with body), 404 to NotFound and
406 to NotAcceptable; `create_customer` additionally maps 402 to
PaymentRequired and 409 to Conflict, and `update_customer` additionally
maps 402 to PaymentRequired; every other non-success status — including
403 for all operations and 402/409 where no arm exists — maps to
`Undocumented` with the decoded body. -/
theorem c1_amended_status_tables {α : Type} (ok : Except ReqwestError α)
    (b : DRACOONErrorResponse) (s : Nat) :
    (handle_get_customers 400 ok (.ok b) = .error (.BadRequest b) ∧
     handle_get_customers 401 ok (.ok b) = .error (.Unauthorized (some b)) ∧
     handle_get_customers 404 ok (.ok b) = .error (.NotFound b) ∧
     handle_get_customers 406 ok (.ok b) = .error (.NotAcceptable b) ∧
     (s ≠ 200 → s ≠ 400 → s ≠ 401 → s ≠ 404 → s ≠ 406 →
       handle_get_customers s ok (.ok b) = .error (.Undocumented b))) ∧
    (handle_create_customer 400 ok (.ok b) = .error (.BadRequest b) ∧
     handle_create_customer 401 ok (.ok b) = .error (.Unauthorized (some b)) ∧
     handle_create_customer 402 ok (.ok b) = .error (.PaymentRequired b) ∧
     handle_create_customer 404 ok (.ok b) = .error (.NotFound b) ∧
     handle_create_customer 406 ok (.ok b) = .error (.NotAcceptable b) ∧
     handle_create_customer 409 ok (.ok b) = .error (.Conflict b) ∧
     (s ≠ 201 → s ≠ 400 → s ≠ 401 → s ≠ 402 → s ≠ 404 → s ≠ 406 → s ≠ 409 →
       handle_create_customer s ok (.ok b) = .error (.Undocumented b))) ∧
    (handle_get_customer 400 ok (.ok b) = .error (.BadRequest b) ∧
     handle_get_customer 401 ok (.ok b) = .error (.Unauthorized (some b)) ∧
     handle_get_customer 404 ok (.ok b) = .error (.NotFound b) ∧
     handle_get_customer 406 ok (.ok b) = .error (.NotAcceptable b) ∧
     (s ≠ 200 → s ≠ 400 → s ≠ 401 → s ≠ 404 → s ≠ 406 →
       handle_get_customer s ok (.ok b) = .error (.Undocumented b))) ∧
    (handle_update_customer 400 ok (.ok b) = .error (.BadRequest b) ∧
     handle_update_customer 401 ok (.ok b) = .error (.Unauthorized (some b)) ∧
     handle_update_customer 402 ok (.ok b) = .error (.PaymentRequired b) ∧
     handle_update_customer 404 ok (.ok b) = .error (.NotFound b) ∧
     handle_update_customer 406 ok (.ok b) = .error (.NotAcceptable b) ∧
     (s ≠ 200 → s ≠ 400 → s ≠ 401 → s ≠ 402 → s ≠ 404 → s ≠ 406 →
       handle_update_customer s ok (.ok b) = .error (.Undocumented b))) ∧
    (handle_delete_customer 400 (.ok b) = .error (.BadRequest b) ∧
     handle_delete_customer 401 (.ok b) = .error (.Unauthorized (some b)) ∧
     handle_delete_customer 404 (.ok b) = .error (.NotFound b) ∧
     handle_delete_customer 406 (.ok b) = .error (.NotAcceptable b) ∧
     (s ≠ 204 → s ≠ 400 → s ≠ 401 → s ≠ 404 → s ≠ 406 →
       handle_delete_customer s (.ok b) = .error (.Undocumented b))) ∧
    (handle_get_customer_attributes 400 ok (.ok b) = .error (.BadRequest b) ∧
     handle_get_customer_attributes 401 ok (.ok b) = .error (.Unauthorized (some b)) ∧
     handle_get_customer_attributes 404 ok (.ok b) = .error (.NotFound b) ∧
     handle_get_customer_attributes 406 ok (.ok b) = .error (.NotAcceptable b) ∧
     (s ≠ 200 → s ≠ 400 → s ≠ 401 → s ≠ 404 → s ≠ 406 →
       handle_get_customer_attributes s ok (.ok b) = .error (.Undocumented b))) ∧
    (handle_update_customer_attributes 400 ok (.ok b) = .error (.BadRequest b) ∧
     handle_update_customer_attributes 401 ok (.ok b) = .error (.Unauthorized (some b)) ∧
     handle_update_customer_attributes 404 ok (.ok b) = .error (.NotFound b) ∧
     handle_update_customer_attributes 406 ok (.ok b) = .error (.NotAcceptable b) ∧
     (s ≠ 200 → s ≠ 400 → s ≠ 401 → s ≠ 404 → s ≠ 406 →
       handle_update_customer_attributes s ok (.ok b) = .error (.Undocumented b))) ∧
    (handle_get_customer_users 400 ok (.ok b) = .error (.BadRequest b) ∧
     handle_get_customer_users 401 ok (.ok b) = .error (.Unauthorized (some b)) ∧
     handle_get_customer_users 404 ok (.ok b) = .error (.NotFound b) ∧
     handle_get_customer_users 406 ok (.ok b) = .error (.NotAcceptable b) ∧
     (s ≠ 200 → s ≠ 400 → s ≠ 401 → s ≠ 404 → s ≠ 406 →
       handle_get_customer_users s ok (.ok b) = .error (.Undocumented b))) := by
  refine ⟨⟨rfl, rfl, rfl, rfl, fun h1 h2 h3 h4 h5 => ?_⟩,
    ⟨rfl, rfl, rfl, rfl, rfl, rfl, fun h1 h2 h3 h4 h5 h6 h7 => ?_⟩,
    ⟨rfl, rfl, rfl, rfl, fun h1 h2 h3 h4 h5 => ?_⟩,
    ⟨rfl, rfl, rfl, rfl, rfl, fun h1 h2 h3 h4 h5 h6 => ?_⟩,
    ⟨rfl, rfl, rfl, rfl, fun h1 h2 h3 h4 h5 => ?_⟩,
    ⟨rfl, rfl, rfl, rfl, fun h1 h2 h3 h4 h5 => ?_⟩,
    ⟨rfl, rfl, rfl, rfl, fun h1 h2 h3 h4 h5 => ?_⟩,
    ⟨rfl, rfl, rfl, rfl, fun h1 h2 h3 h4 h5 => ?_⟩⟩
  · simp [handle_get_customers, errTo, h1, h2, h3, h4, h5]
  · simp [handle_create_customer, errTo, h1, h2, h3, h4, h5, h6, h7]
  · simp [handle_get_customer, errTo, h1, h2, h3, h4, h5]
  · simp [handle_update_customer, errTo, h1, h2, h3, h4, h5, h6]
  · simp [handle_delete_customer, errTo, h1, h2, h3, h4, h5]
  · simp [handle_get_customer_attributes, errTo, h1, h2, h3, h4, h5]
  · simp [handle_update_customer_attributes, errTo, h1, h2, h3, h4, h5]
  · simp [handle_get_customer_users, errTo, h1, h2, h3, h4, h5]

/-- Witness for the amended C1: every operation maps HTTP 403 (with a
decoded body) to `Undocumented`. -/
theorem c1_amended_witness :
    handle_get_customers 403 (Except.ok ()) (.ok ⟨1, "f", none, none⟩) =
      .error (.Undocumented ⟨1, "f", none, none⟩) ∧
    handle_create_customer 403 (Except.ok ()) (.ok ⟨1, "f", none, none⟩) =
      .error (.Undocumented ⟨1, "f", none, none⟩) ∧
    handle_get_customer 403 (Except.ok ()) (.ok ⟨1, "f", none, none⟩) =
      .error (.Undocumented ⟨1, "f", none, none⟩) ∧
    handle_update_customer 403 (Except.ok ()) (.ok ⟨1, "f", none, none⟩) =
      .error (.Undocumented ⟨1, "f", none, none⟩) ∧
    handle_delete_customer 403 (.ok ⟨1, "f", none, none⟩) =
      .error (.Undocumented ⟨1, "f", none, none⟩) ∧
    handle_get_customer_attributes 403 (Except.ok ()) (.ok ⟨1, "f", none, none⟩) =
      .error (.Undocumented ⟨1, "f", none, none⟩) ∧
    handle_update_customer_attributes 403 (Except.ok ()) (.ok ⟨1, "f", none, none⟩) =
      .error (.Undocumented ⟨1, "f", none, none⟩) ∧
    handle_get_customer_users 403 (Except.ok ()) (.ok ⟨1, "f", none, none⟩) =
      .error (.Undocumented ⟨1, "f", none, none⟩) := by
  obtain ⟨hGC, hCC, hG1, hUC, hDC, hGA, hUA, hGU⟩ :=
    @c1_amended_status_tables Unit (Except.ok ()) ⟨1, "f", none, none⟩ 403
  exact ⟨hGC.2.2.2.2 (by decide) (by decide) (by decide) (by decide) (by decide),
    hCC.2.2.2.2.2.2 (by decide) (by decide) (by decide) (by decide) (by decide)
      (by decide) (by decide),
    hG1.2.2.2.2 (by decide) (by decide) (by decide) (by decide) (by decide),
    hUC.2.2.2.2.2 (by decide) (by decide) (by decide) (by decide) (by decide)
      (by decide),
    hDC.2.2.2.2 (by decide) (by decide) (by decide) (by decide) (by decide),
    hGA.2.2.2.2 (by decide) (by decide) (by decide) (by decide) (by decide),
    hUA.2.2.2.2 (by decide) (by decide) (by decide) (by decide) (by decide),
    hGU.2.2.2.2 (by decide) (by decide) (by decide) (by decide) (by decide)⟩

/-! ## C9: a failed decode of the error body surfaces as RequestFailed -/

/-- C9: in every operation, every non-success status attempts to decode the
standard error body, and when that decode itself fails the operation returns
`RequestFailed` (the spec's `TransportFailure`) carrying the decode error —
never another taxonomy variant. -/
theorem c9_error_body_decode_failure {α : Type} (ok : Except ReqwestError α)
    (e : ReqwestError) (s : Nat) :
    (s ≠ 200 → handle_get_customers s ok (.error e) =
      .error (.RequestFailed e)) ∧
    (s ≠ 201 → handle_create_customer s ok (.error e) =
      .error (.RequestFailed e)) ∧
    (s ≠ 200 → handle_get_customer s ok (.error e) =
      .error (.RequestFailed e)) ∧
    (s ≠ 200 → handle_update_customer s ok (.error e) =
      .error (.RequestFailed e)) ∧
    (s ≠ 204 → handle_delete_customer s (.error e) =
      .error (.RequestFailed e)) ∧
    (s ≠ 200 → handle_get_customer_attributes s ok (.error e) =
      .error (.RequestFailed e)) ∧
    (s ≠ 200 → handle_update_customer_attributes s ok (.error e) =
      .error (.RequestFailed e)) ∧
    (s ≠ 200 → handle_get_customer_users s ok (.error e) =
      .error (.RequestFailed e)) := by
  refine ⟨fun h => ?_, fun h => ?_, fun h => ?_, fun h => ?_, fun h => ?_,
    fun h => ?_, fun h => ?_, fun h => ?_⟩
  · simp [handle_get_customers, errTo, h]
  · simp [handle_create_customer, errTo, h]
  · simp [handle_get_customer, errTo, h]
  · simp [handle_update_customer, errTo, h]
  · simp [handle_delete_customer, errTo, h]
  · simp [handle_get_customer_attributes, errTo, h]
  · simp [handle_update_customer_attributes, errTo, h]
  · simp [handle_get_customer_users, errTo, h]

/-- Witness for C9 at HTTP 500 with a concrete failed decode. -/
theorem c9_witness :
    handle_get_customers 500 (Except.ok ()) (.error ⟨"bad json"⟩) =
      .error (.RequestFailed ⟨"bad json"⟩) ∧
    handle_create_customer 500 (Except.ok ()) (.error ⟨"bad json"⟩) =
      .error (.RequestFailed ⟨"bad json"⟩) ∧
    handle_delete_customer 500 (.error ⟨"bad json"⟩) =
      .error (.RequestFailed ⟨"bad json"⟩) := by
  obtain ⟨h1, h2, -, -, h5, -⟩ :=
    @c9_error_body_decode_failure Unit (Except.ok ()) ⟨"bad json"⟩ 500
  exact ⟨h1 (by decide), h2 (by decide), h5 (by decide)⟩

/-! ## Credential store (src/credentials.rs)

The keytar crate (OS secret store) is an external collaborator; it is
modelled as an association list from (service, url) keys to stored tokens
plus three failure-injection flags, one per backend operation.  Mutation is
embedded as explicit state passing. -/

/-- Generic association-list lookup used to model keyed stores. -/
def lookupKey {κ β : Type} [DecidableEq κ] : List (κ × β) → κ → Option β
  | [], _ => none
  | (k', v) :: rest, k => if k' = k then some v else lookupKey rest k

/-- The state of the external keytar secret store. -/
structure Keytar where
  entries : List ((String × String) × String)
  getErr : Bool
  setErr : Bool
  delErr : Bool
deriving DecidableEq, Repr

/-- The shape returned by `keytar::get_password`: a success flag and the
password (empty when the entry is absent). -/
structure Password where
  success : Bool
  password : String
deriving DecidableEq, Repr

/-- `SERVICE_NAME` (src/credentials.rs, line 5): the cargo package name. -/
def SERVICE_NAME : String := "dcprov"

/-- Model of `keytar::get_password`: a backend error when injected,
otherwise a `Password` whose success flag says whether the entry exists. -/
def get_password (k : Keytar) (service url : String) : Except Unit Password :=
  if k.getErr then .error ()
  else
    match lookupKey k.entries (service, url) with
    | some p => .ok ⟨true, p⟩
    | none => .ok ⟨false, ""⟩

/-- Model of `keytar::set_password`: a backend error when injected,
otherwise the store with the new entry in front (lookup prefers it). -/
def set_password (k : Keytar) (service url token : String) :
    Except Unit Keytar :=
  if k.setErr then .error ()
  else .ok { k with entries := ((service, url), token) :: k.entries }

/-- Model of `keytar::delete_password`: a backend error when injected,
otherwise the store without the entry. -/
def delete_password (k : Keytar) (service url : String) :
    Except Unit (Bool × Keytar) :=
  if k.delErr then .error ()
  else
    let remaining := k.entries.filter fun p =>
      !((p.1.1 == service) && (p.1.2 == url))
    .ok (true, { k with entries := remaining })

/-- `set_dracoon_env` (src/credentials.rs, lines 7-12): true on a successful
write, false when the backend write fails.  The possibly-updated store is
threaded alongside the source's boolean result. -/
def set_dracoon_env (k : Keytar) (dracoon_url service_token : String) :
    Bool × Keytar :=
  match set_password k SERVICE_NAME dracoon_url service_token with
  | .ok k' => (true, k')
  | .error _ => (false, k)

/-- `get_dracoon_env` (src/credentials.rs, lines 14-22): the stored token on
success; both an unsuccessful lookup (`success == false`) and a backend read
error collapse to `InvalidAccount`. -/
def get_dracoon_env (k : Keytar) (dracoon_url : String) :
    Except DRACOONProvisioningError String :=
  match get_password k SERVICE_NAME dracoon_url with
  | .ok pwd => if pwd.success then .ok pwd.password else .error .InvalidAccount
  | .error _ => .error .InvalidAccount

/-- `delete_dracoon_env` (src/credentials.rs, lines 24-32): first looks the
entry up via `get_dracoon_env`; on a present entry it calls the backend
delete and returns whether that succeeded; on an absent entry (or lookup
failure) it returns false without touching the backend.  The
possibly-updated store is threaded alongside the source's boolean result. -/
def delete_dracoon_env (k : Keytar) (dracoon_url : String) : Bool × Keytar :=
  match get_dracoon_env k dracoon_url with
  | .ok _ =>
    match delete_password k SERVICE_NAME dracoon_url with
    | .ok r => (true, r.2)
    | .error _ => (false, k)
  | .error _ => (false, k)

/-! ## C10: the credential lookup only ever fails with InvalidAccount -/

/-- C10: `get_dracoon_env` returns either the stored token or
`InvalidAccount` and nothing else; a backend read error and an absent
entry both collapse to `InvalidAccount`, so callers cannot tell them
apart. -/
theorem c10_get_dracoon_env_invalid_account (k : Keytar) (url : String) :
    ((∃ t, get_dracoon_env k url = .ok t) ∨
      get_dracoon_env k url = .error .InvalidAccount) ∧
    (k.getErr = true → get_dracoon_env k url = .error .InvalidAccount) ∧
    (k.getErr = false → lookupKey k.entries (SERVICE_NAME, url) = none →
      get_dracoon_env k url = .error .InvalidAccount) ∧
    (k.getErr = false → ∀ t, lookupKey k.entries (SERVICE_NAME, url) = some t →
      get_dracoon_env k url = .ok t) := by
  refine ⟨?_, fun hg => ?_, fun hg hl => ?_, fun hg t hl => ?_⟩
  · by_cases hg : k.getErr
    · exact Or.inr (by simp [get_dracoon_env, get_password, hg])
    · cases hl : lookupKey k.entries (SERVICE_NAME, url) with
      | none => exact Or.inr (by simp [get_dracoon_env, get_password, hg, hl])
      | some t =>
        exact Or.inl ⟨t, by simp [get_dracoon_env, get_password, hg, hl]⟩
  · simp [get_dracoon_env, get_password, hg]
  · simp [get_dracoon_env, get_password, hg, hl]
  · simp [get_dracoon_env, get_password, hg, hl]

/-- Witness for C10: a store with an injected backend read error and a store
without the entry both yield `InvalidAccount`; a store holding the entry
yields the token. -/
theorem c10_witness :
    get_dracoon_env ⟨[((SERVICE_NAME, "https://a"), "tok")], true, false, false⟩
      "https://a" = .error .InvalidAccount ∧
    get_dracoon_env ⟨[], false, false, false⟩ "https://a" =
      .error .InvalidAccount ∧
    get_dracoon_env ⟨[((SERVICE_NAME, "https://a"), "tok")], false, false, false⟩
      "https://a" = .ok "tok" :=
  ⟨(c10_get_dracoon_env_invalid_account
      ⟨[((SERVICE_NAME, "https://a"), "tok")], true, false, false⟩
      "https://a").2.1 rfl,
   (c10_get_dracoon_env_invalid_account ⟨[], false, false, false⟩
      "https://a").2.2.1 rfl rfl,
   (c10_get_dracoon_env_invalid_account
      ⟨[((SERVICE_NAME, "https://a"), "tok")], false, false, false⟩
      "https://a").2.2.2 rfl "tok" (by simp [lookupKey])⟩

/-! ## C6: deleting a nonexistent stored credential -/

/-- C6 counterexample: `delete_dracoon_env` returns a bare boolean; a
missing entry and a failing backend delete produce the same observable
outcome `false`, so the absent-entry case is not reported as an
`InvalidAccount` outcome distinct from a backend deletion failure. -/
theorem c6_counterexample :
    (delete_dracoon_env ⟨[], false, false, false⟩ "https://a").1 = false ∧
    (delete_dracoon_env ⟨[((SERVICE_NAME, "https://a"), "tok")], false, false,
        true⟩ "https://a").1 = false ∧
    (delete_dracoon_env ⟨[], false, false, false⟩ "https://a").1 =
      (delete_dracoon_env ⟨[((SERVICE_NAME, "https://a"), "tok")], false,
        false, true⟩ "https://a").1 :=
  ⟨rfl, rfl, rfl⟩

/-- C6 amended: `delete_dracoon_env` does verify presence first — the
lookup's absent-entry outcome is `InvalidAccount` internally, and in that
case the function returns false with the store untouched and the backend
delete never invoked (the result is the same for every backend delete
behaviour); but the returned boolean does not distinguish that case from a
backend deletion failure, which also returns false. -/
theorem c6_amended_delete_checks_presence (k : Keytar) (url : String) :
    (get_dracoon_env k url = .error .InvalidAccount →
      delete_dracoon_env k url = (false, k) ∧
      ∀ dErr, delete_dracoon_env { k with delErr := dErr } url =
        (false, { k with delErr := dErr })) ∧
    (∀ t, get_dracoon_env k url = .ok t → k.delErr = true →
      delete_dracoon_env k url = (false, k)) := by
  constructor
  · intro habs
    have habs' : ∀ dErr, get_dracoon_env { k with delErr := dErr } url =
        .error .InvalidAccount := by
      intro dErr
      simpa [get_dracoon_env, get_password] using habs
    exact ⟨by simp [delete_dracoon_env, habs],
      fun dErr => by simp [delete_dracoon_env, habs' dErr]⟩
  · intro t hok hd
    simp [delete_dracoon_env, hok, delete_password, hd]

/-- Witness for the amended C6 at a concrete empty store and a concrete
store with a failing backend delete. -/
theorem c6_witness :
    delete_dracoon_env ⟨[], false, false, false⟩ "https://a" =
      (false, ⟨[], false, false, false⟩) ∧
    delete_dracoon_env ⟨[((SERVICE_NAME, "https://a"), "tok")], false, false,
        true⟩ "https://a" =
      (false, ⟨[((SERVICE_NAME, "https://a"), "tok")], false, false, true⟩) :=
  ⟨((c6_amended_delete_checks_presence ⟨[], false, false, false⟩
      "https://a").1 rfl).1,
   (c6_amended_delete_checks_presence
      ⟨[((SERVICE_NAME, "https://a"), "tok")], false, false, true⟩
      "https://a").2 "tok" (by simp [get_dracoon_env, get_password, lookupKey])
      rfl⟩

/-! ## Session bootstrap (src/cmd/mod.rs, lines 77-141) -/

/-- Model of Rust `str::trim_end`: strip trailing whitespace. -/
def trimEnd (s : String) : String :=
  ⟨(s.data.reverse.dropWhile (fun c => c.isWhitespace)).reverse⟩

/-- Model of Rust `str::trim`: strip leading and trailing whitespace. -/
def trimBoth (s : String) : String :=
  ⟨((s.data.dropWhile (fun c => c.isWhitespace)).reverse.dropWhile
      (fun c => c.isWhitespace)).reverse⟩

/-- The store-confirmation loop of `init_provisioning` (src/cmd/mod.rs,
lines 115-138): read answers until one of Y/y (store the token, ignoring
the write's result) or N/n (skip).  The list models successive stdin
lines; an exhausted list leaves the store unchanged (in the source the
loop would keep prompting). -/
def storeLoop (k : Keytar) (url token : String) : List String → Keytar
  | [] => k
  | ans :: rest =>
    match trimBoth ans with
    | "Y" => (set_dracoon_env k url token).2
    | "y" => (set_dracoon_env k url token).2
    | "N" => k
    | "n" => k
    | _ => storeLoop k url token rest

/-- Outcome of `init_provisioning`: whether the token was prompted from
stdin, and either the constructed client with the final store state or the
`process::exit(1)` taken when client construction fails. -/
structure InitResult where
  prompted : Bool
  outcome : Except Unit (DRACOONProvisioning × Keytar)
deriving Repr

/-- `init_provisioning` (src/cmd/mod.rs, lines 77-141): use the stored
token when the lookup succeeds, otherwise prompt (`promptInput` models the
stdin line); construct the client from the trimmed url and token, exiting
on failure; then, only when the token was prompted, run the
store-confirmation loop. -/
def init_provisioning (urlParse : String → Option String) (k : Keytar)
    (url promptInput : String) (storeAnswers : List String)
    (sendResult : Except ReqwestError Nat) : InitResult :=
  let resolved : String × Bool :=
    match get_dracoon_env k url with
    | .ok pwd => (pwd, true)
    | .error _ => (promptInput, false)
  match DRACOONProvisioning.new urlParse (trimEnd url) (trimEnd resolved.1)
      sendResult with
  | .error _ => ⟨!resolved.2, .error ()⟩
  | .ok prov =>
    if resolved.2 then ⟨false, .ok (prov, k)⟩
    else ⟨true, .ok (prov, storeLoop k url resolved.1 storeAnswers)⟩

/-- Answering Y to the store prompt performs the credential write. -/
theorem storeLoop_confirm_yes (k : Keytar) (url token : String)
    (rest : List String) :
    storeLoop k url token ("Y" :: rest) = (set_dracoon_env k url token).2 :=
  rfl

/-- Answering N to the store prompt leaves the store untouched. -/
theorem storeLoop_decline (k : Keytar) (url token : String)
    (rest : List String) :
    storeLoop k url token ("N" :: rest) = k :=
  rfl

/-! ## C4: bootstrap credential resolution -/

/-- C4 counterexample: with no stored entry and the user declining the
store prompt (answer N), the bootstrap completes with the prompted token
but the store is unchanged, so a subsequent resolution for the same url
prompts again — the prompted token is not unconditionally persisted. -/
theorem c4_counterexample :
    (init_provisioning (fun s => some s) ⟨[], false, false, false⟩
        "https://u" "tok" ["N"] (.ok 200)).outcome =
      .ok (⟨"https://u", "tok"⟩, ⟨[], false, false, false⟩) ∧
    get_dracoon_env ⟨[], false, false, false⟩ "https://u" =
      .error .InvalidAccount ∧
    (init_provisioning (fun s => some s) ⟨[], false, false, false⟩
        "https://u" "tok" ["N"] (.ok 200)).prompted = true :=
  ⟨rfl, rfl, rfl⟩

/-- C4 amended: when a stored token exists the bootstrap uses it without
prompting and without persisting again; when none exists it prompts and,
upon the user confirming storage (answer Y) with a working store backend,
persists the prompted token under (service, url), so that a subsequent
resolution for the same url uses the stored value without prompting. -/
theorem c4_amended_bootstrap (urlParse : String → Option String) (k : Keytar)
    (url promptInput promptInput2 t parsed : String)
    (answers answers2 : List String)
    (hu : urlParse (trimEnd url) = some parsed) :
    (get_dracoon_env k url = .ok t →
      init_provisioning urlParse k url promptInput answers (.ok 200) =
        ⟨false, .ok (⟨parsed, trimEnd t⟩, k)⟩) ∧
    (get_dracoon_env k url = .error .InvalidAccount →
     k.getErr = false → k.setErr = false →
      init_provisioning urlParse k url promptInput ("Y" :: answers)
          (.ok 200) =
        ⟨true, .ok (⟨parsed, trimEnd promptInput⟩,
          { k with entries :=
            ((SERVICE_NAME, url), promptInput) :: k.entries })⟩ ∧
      init_provisioning urlParse
          { k with entries :=
            ((SERVICE_NAME, url), promptInput) :: k.entries }
          url promptInput2 answers2 (.ok 200) =
        ⟨false, .ok (⟨parsed, trimEnd promptInput⟩,
          { k with entries :=
            ((SERVICE_NAME, url), promptInput) :: k.entries })⟩) := by
  refine ⟨fun h => ?_, fun h hg hs => ⟨?_, ?_⟩⟩
  · simp [init_provisioning, h, DRACOONProvisioning.new,
      check_token_validity, hu]
  · simp [init_provisioning, h, DRACOONProvisioning.new,
      check_token_validity, hu, storeLoop_confirm_yes, set_dracoon_env,
      set_password, hs]
  · simp [init_provisioning, get_dracoon_env, get_password, lookupKey, hg,
      DRACOONProvisioning.new, check_token_validity, hu]

/-- Witness for the amended C4: a stored-token run without prompting, a
prompted run with confirmation Y that persists, and a subsequent run that
uses the persisted token without prompting. -/
theorem c4_witness :
    init_provisioning (fun s => some s)
        ⟨[((SERVICE_NAME, "https://u"), "tok")], false, false, false⟩
        "https://u" "ignored" [] (.ok 200) =
      ⟨false, .ok (⟨"https://u", "tok"⟩,
        ⟨[((SERVICE_NAME, "https://u"), "tok")], false, false, false⟩)⟩ ∧
    init_provisioning (fun s => some s) ⟨[], false, false, false⟩
        "https://u" "newtok" ["Y"] (.ok 200) =
      ⟨true, .ok (⟨"https://u", "newtok"⟩,
        ⟨[((SERVICE_NAME, "https://u"), "newtok")], false, false, false⟩)⟩ ∧
    init_provisioning (fun s => some s)
        ⟨[((SERVICE_NAME, "https://u"), "newtok")], false, false, false⟩
        "https://u" "other" [] (.ok 200) =
      ⟨false, .ok (⟨"https://u", "newtok"⟩,
        ⟨[((SERVICE_NAME, "https://u"), "newtok")], false, false, false⟩)⟩ := by
  refine ⟨?_, ?_, ?_⟩
  · exact (c4_amended_bootstrap (fun s => some s)
      ⟨[((SERVICE_NAME, "https://u"), "tok")], false, false, false⟩
      "https://u" "ignored" "x" "tok" "https://u" [] [] rfl).1 rfl
  · exact ((c4_amended_bootstrap (fun s => some s) ⟨[], false, false, false⟩
      "https://u" "newtok" "other" "x" "https://u" [] [] rfl).2 rfl rfl
      rfl).1
  · exact ((c4_amended_bootstrap (fun s => some s) ⟨[], false, false, false⟩
      "https://u" "newtok" "other" "x" "https://u" [] [] rfl).2 rfl rfl
      rfl).2

/-! ## C5: failed persistence and CredentialStorageFailed

The error enum `DcProvError` (src/cmd/models.rs, lines 10-37) declares a
`CredentialStorageFailed` variant, but no code under src/ constructs it
(the enum is marked allow dead_code): the bootstrap `init_provisioning`
(src/cmd/mod.rs, lines 115-138) discards the boolean result of
`set_dracoon_env` (lines 126 and 130) and continues, so a failing
credential write is not fatal. -/

/-- `DcProvError` (src/cmd/models.rs, lines 10-37); the dco3
`DracoonErrorResponse` payloads are modelled by `DRACOONErrorResponse`.
Declared in src/ but never constructed there. -/
inductive DcProvError where
  | InvalidAccount
  | CredentialStorageFailed
  | CredentialDeletionFailed
  | BadRequest (body : DRACOONErrorResponse)
  | Unauthorized (body : DRACOONErrorResponse)
  | Forbidden (body : DRACOONErrorResponse)
  | NotFound (body : DRACOONErrorResponse)
  | PaymentRequired (body : DRACOONErrorResponse)
  | Conflict (body : DRACOONErrorResponse)
  | Unknown (body : DRACOONErrorResponse)
  | Io
  | Other
deriving DecidableEq, Repr

/-- C5 counterexample: with no stored entry, a store whose write fails,
and the user confirming persistence (answer Y), the bootstrap still
completes successfully with the valid but unpersisted token and an
unchanged store — the failing credential write is not fatal and no
`CredentialStorageFailed` error is surfaced. -/
theorem c5_counterexample :
    (set_dracoon_env ⟨[], false, true, false⟩ "https://u" "tok").1 = false ∧
    init_provisioning (fun s => some s) ⟨[], false, true, false⟩ "https://u"
        "tok" ["Y"] (.ok 200) =
      ⟨true, .ok (⟨"https://u", "tok"⟩, ⟨[], false, true, false⟩)⟩ :=
  ⟨rfl, rfl⟩

/-- C5 amended: when the prompted token is marked for persistence and the
user confirms storage, the bootstrap attempts the credential write via
`set_dracoon_env`, but it discards the write's boolean result: on a
failing write it completes with the valid but unpersisted token and the
unchanged store instead of failing with `CredentialStorageFailed` (that
variant of the in-src `DcProvError` enum is never constructed). -/
theorem c5_amended_persist_failure_ignored
    (urlParse : String → Option String) (k : Keytar)
    (url promptInput parsed : String) (answers : List String)
    (hu : urlParse (trimEnd url) = some parsed)
    (habs : get_dracoon_env k url = .error .InvalidAccount)
    (hset : k.setErr = true) :
    set_dracoon_env k url promptInput = (false, k) ∧
    init_provisioning urlParse k url promptInput ("Y" :: answers) (.ok 200) =
      ⟨true, .ok (⟨parsed, trimEnd promptInput⟩, k)⟩ := by
  constructor
  · simp [set_dracoon_env, set_password, hset]
  · simp [init_provisioning, habs, DRACOONProvisioning.new,
      check_token_validity, hu, storeLoop_confirm_yes, set_dracoon_env,
      set_password, hset]

/-- Witness for the amended C5 at a concrete store with a failing write. -/
theorem c5_amended_witness :
    set_dracoon_env ⟨[], false, true, false⟩ "https://u" "tok" =
      (false, ⟨[], false, true, false⟩) ∧
    init_provisioning (fun s => some s) ⟨[], false, true, false⟩ "https://u"
        "tok" ["Y"] (.ok 200) =
      ⟨true, .ok (⟨"https://u", "tok"⟩, ⟨[], false, true, false⟩)⟩ :=
  c5_amended_persist_failure_ignored (fun s => some s)
    ⟨[], false, true, false⟩ "https://u" "tok" "https://u" [] rfl rfl rfl

/-! ## Query assembly of the paginated operations (src/provisioning.rs)

Each paginated operation builds its URL by appending one query fragment per
parameter in a fixed order of match blocks.  Each `api_url += ...` fragment
is embedded as one (key, value) pair, in the same order and under the same
conditions as in the source. -/

/-- `DEFAULT_LIMIT` (src/provisioning.rs, line 13). -/
def DEFAULT_LIMIT : Int := 500

/-- `DEFAULT_OFFSET` (src/provisioning.rs, line 14). -/
def DEFAULT_OFFSET : Int := 0

/-- `DEFAULT_INCLUDE_ATTRIBUTES` (src/provisioning.rs, line 15). -/
def DEFAULT_INCLUDE_ATTRIBUTES : Bool := false

/-- Query fragments of `get_customers` (src/provisioning.rs, lines
393-422): limit (default 500), offset (default 0), filter and sort only
when present, include_attributes (default false). -/
def get_customers_query (filter sort : Option String)
    (limit offset : Option Int) (include_attributes : Option Bool) :
    List (String × String) :=
  (match limit with
   | some l => [("limit", toString l)]
   | none => [("limit", toString DEFAULT_LIMIT)]) ++
  (match offset with
   | some o => [("offset", toString o)]
   | none => [("offset", toString DEFAULT_OFFSET)]) ++
  (match filter with
   | some f => [("filter", f)]
   | none => []) ++
  (match sort with
   | some s => [("sort", s)]
   | none => []) ++
  (match include_attributes with
   | some ia => [("include_attributes", toString ia)]
   | none => [("include_attributes", toString DEFAULT_INCLUDE_ATTRIBUTES)])

/-- Query fragments of `get_customer_attributes` (src/provisioning.rs,
lines 692-710): limit (default 500), offset (default 0), filter and sort
only when present. -/
def get_customer_attributes_query (filter sort : Option String)
    (offset limit : Option Int) : List (String × String) :=
  (match limit with
   | some l => [("limit", toString l)]
   | none => [("limit", toString DEFAULT_LIMIT)]) ++
  (match offset with
   | some o => [("offset", toString o)]
   | none => [("offset", toString DEFAULT_OFFSET)]) ++
  (match filter with
   | some f => [("filter", f)]
   | none => []) ++
  (match sort with
   | some s => [("sort", s)]
   | none => [])

/-- Query fragments of `get_customer_users` (src/provisioning.rs, lines
815-833): limit (default 500), offset (default 0), filter and sort only
when present. -/
def get_customer_users_query (filter sort : Option String)
    (offset limit : Option Int) : List (String × String) :=
  (match limit with
   | some l => [("limit", toString l)]
   | none => [("limit", toString DEFAULT_LIMIT)]) ++
  (match offset with
   | some o => [("offset", toString o)]
   | none => [("offset", toString DEFAULT_OFFSET)]) ++
  (match filter with
   | some f => [("filter", f)]
   | none => []) ++
  (match sort with
   | some s => [("sort", s)]
   | none => [])

/-! ## C8: pagination defaults and optional filter/sort -/

/-- C8: in all three paginated operations the request carries
limit=500 when the caller omits limit and offset=0 when the caller omits
offset (otherwise the caller's values), and the filter and sort query
parameters appear exactly when the caller provides them. -/
theorem c8_pagination_defaults (filter sort : Option String)
    (limit offset : Option Int) (ia : Option Bool) :
    lookupKey (get_customers_query filter sort limit offset ia) "limit" =
      some (toString (limit.getD DEFAULT_LIMIT)) ∧
    lookupKey (get_customers_query filter sort limit offset ia) "offset" =
      some (toString (offset.getD DEFAULT_OFFSET)) ∧
    lookupKey (get_customers_query filter sort limit offset ia) "filter" =
      filter ∧
    lookupKey (get_customers_query filter sort limit offset ia) "sort" =
      sort ∧
    lookupKey (get_customer_attributes_query filter sort offset limit)
      "limit" = some (toString (limit.getD DEFAULT_LIMIT)) ∧
    lookupKey (get_customer_attributes_query filter sort offset limit)
      "offset" = some (toString (offset.getD DEFAULT_OFFSET)) ∧
    lookupKey (get_customer_attributes_query filter sort offset limit)
      "filter" = filter ∧
    lookupKey (get_customer_attributes_query filter sort offset limit)
      "sort" = sort ∧
    lookupKey (get_customer_users_query filter sort offset limit) "limit" =
      some (toString (limit.getD DEFAULT_LIMIT)) ∧
    lookupKey (get_customer_users_query filter sort offset limit) "offset" =
      some (toString (offset.getD DEFAULT_OFFSET)) ∧
    lookupKey (get_customer_users_query filter sort offset limit) "filter" =
      filter ∧
    lookupKey (get_customer_users_query filter sort offset limit) "sort" =
      sort := by
  cases filter <;> cases sort <;> cases limit <;> cases offset <;> cases ia <;>
    exact ⟨rfl, rfl, rfl, rfl, rfl, rfl, rfl, rfl, rfl, rfl, rfl, rfl⟩

/-! ## C2: fetch-all pagination (spec-modelled)

The fetch-all listing mode exists in the current-generation cmd module,
which is not in src/ — only its `--all` flag declaration is
(src/cmd/models.rs, lines 79-80).  The loop is therefore modelled from
spec sections 4.2 and 8: repeatedly issue list-customer calls advancing
the offset by the page size 500 until the offset exceeds the latest
page's reported total, accumulating items in server order, aborting with
the first page error. -/

/-- `RangeResponse` (src/provisioning.rs, lines 50-55). -/
structure RangeResponse where
  offset : Int
  limit : Int
  total : Int
deriving DecidableEq, Repr

/-- A paged listing response: pagination range plus the page's items, the
shape shared by GetCustomersResponse, AttributesResponse and UserList
(src/provisioning.rs); the item type is kept generic. -/
structure Page (α : Type) where
  range : RangeResponse
  items : List α
deriving Repr

/-- Modelled from the spec: the fetch-all loop body of the missing
current-generation cmd module (spec section 4.2).  `fetch` stands for one
list-customers call at a given offset; the result records the offsets
requested in order and either the accumulated items of all pages or the
first page error.  The fuel argument only bounds the structural recursion;
every theorem below supplies enough of it. -/
def fetch_all_customers_go {α ε : Type} (fetch : Int → Except ε (Page α)) :
    Nat → Int → List Int → List α → List Int × Except ε (List α)
  | 0, _, log, acc => (log.reverse, .ok acc)
  | fuel + 1, offset, log, acc =>
    match fetch offset with
    | .error e => ((offset :: log).reverse, .error e)
    | .ok page =>
      if offset + 500 > page.range.total then
        ((offset :: log).reverse, .ok (acc ++ page.items))
      else
        fetch_all_customers_go fetch fuel (offset + 500) (offset :: log)
          (acc ++ page.items)

/-- Modelled from the spec: fetch-all mode starts at offset 0 with an empty
accumulation. -/
def fetch_all_customers {α ε : Type} (fetch : Int → Except ε (Page α))
    (fuel : Nat) : List Int × Except ε (List α) :=
  fetch_all_customers_go fetch fuel 0 [] []

/-- Splitting a shifted map over an initial range at its head. -/
theorem range_shift_map {β : Type} (f : Nat → β) (k n : Nat) :
    (List.range (n + 1)).map (fun i => f (k + i)) =
      f k :: (List.range n).map (fun i => f (k + 1 + i)) := by
  have h1 : ∀ i : Nat, f (k + (i + 1)) = f (k + 1 + i) := by
    intro i
    congr 1
    omega
  simp [List.range_succ_eq_map, List.map_map, Function.comp, h1]

/-- Loop invariant of the fetch-all loop, success case: if, starting from
page index k, the next n pages succeed and each of their reported totals
keeps the loop going while page k+n's total stops it, the loop requests
exactly the offsets 500*(k+i) for i = 0..n in order and appends the pages'
items to the accumulator in server order. -/
theorem fetch_all_go_ok {α ε : Type} (fetch : Int → Except ε (Page α))
    (pages : Nat → Page α) :
    ∀ (n k fuel : Nat) (log : List Int) (acc : List α), n < fuel →
    (∀ i : Nat, i ≤ n →
      fetch (500 * ((k + i : Nat) : Int)) = .ok (pages (k + i))) →
    (∀ i : Nat, i < n →
      500 * ((k + i + 1 : Nat) : Int) ≤ (pages (k + i)).range.total) →
    500 * ((k + n + 1 : Nat) : Int) > (pages (k + n)).range.total →
    fetch_all_customers_go fetch fuel (500 * ((k : Nat) : Int)) log acc =
      (log.reverse ++
        (List.range (n + 1)).map (fun i => 500 * ((k + i : Nat) : Int)),
       .ok (acc ++
        ((List.range (n + 1)).map (fun i => (pages (k + i)).items)).flatten)) := by
  intro n
  induction n with
  | zero =>
    intro k fuel log acc hfuel hok hcont hstop
    obtain ⟨f, rfl⟩ : ∃ f, fuel = f + 1 := ⟨fuel - 1, by omega⟩
    have h0 : fetch (500 * ((k : Nat) : Int)) = .ok (pages k) := by
      have := hok 0 (Nat.le_refl 0)
      simpa using this
    have hgt : 500 * ((k : Nat) : Int) + 500 > (pages k).range.total := by
      have h := hstop
      simp only [Nat.add_zero] at h
      push_cast at h
      linarith
    have hr1 : List.range 1 = [0] := rfl
    simp [fetch_all_customers_go, h0, hgt, hr1, List.flatten]
  | succ n ih =>
    intro k fuel log acc hfuel hok hcont hstop
    obtain ⟨f, rfl⟩ : ∃ f, fuel = f + 1 := ⟨fuel - 1, by omega⟩
    have h0 : fetch (500 * ((k : Nat) : Int)) = .ok (pages k) := by
      have := hok 0 (Nat.zero_le _)
      simpa using this
    have hle : 500 * ((k : Nat) : Int) + 500 ≤ (pages k).range.total := by
      have h := hcont 0 (Nat.succ_pos n)
      simp only [Nat.add_zero] at h
      push_cast at h
      linarith
    have hnotgt : ¬ 500 * ((k : Nat) : Int) + 500 > (pages k).range.total :=
      not_lt.mpr hle
    have hnext : (500 : Int) * ((k : Nat) : Int) + 500 =
        500 * (((k + 1 : Nat)) : Int) := by
      push_cast
      ring
    have hok' : ∀ i : Nat, i ≤ n →
        fetch (500 * ((k + 1 + i : Nat) : Int)) = .ok (pages (k + 1 + i)) := by
      intro i hi
      have e : k + 1 + i = k + (i + 1) := by omega
      rw [e]
      exact hok (i + 1) (by omega)
    have hcont' : ∀ i : Nat, i < n →
        500 * ((k + 1 + i + 1 : Nat) : Int) ≤
          (pages (k + 1 + i)).range.total := by
      intro i hi
      have e : k + 1 + i = k + (i + 1) := by omega
      have e2 : k + 1 + i + 1 = k + (i + 1) + 1 := by omega
      rw [e2, e]
      exact hcont (i + 1) (by omega)
    have hstop' : 500 * ((k + 1 + n + 1 : Nat) : Int) >
        (pages (k + 1 + n)).range.total := by
      have e : k + 1 + n = k + (n + 1) := by omega
      have e2 : k + 1 + n + 1 = k + (n + 1) + 1 := by omega
      rw [e2, e]
      exact hstop
    have ihh := ih (k + 1) f (500 * ((k : Nat) : Int) :: log)
      (acc ++ (pages k).items) (by omega) hok' hcont' hstop'
    simp only [fetch_all_customers_go, h0, hnotgt, if_false]
    rw [← hnext] at ihh
    rw [ihh, range_shift_map (fun j => (500 : Int) * ((j : Nat) : Int)) k (n + 1),
      range_shift_map (fun j => (pages j).items) k (n + 1)]
    simp [List.flatten]

/-- Loop invariant of the fetch-all loop, failure case: if, starting from
page index k, the next n pages succeed with totals that keep the loop
going and the fetch at page index k+n fails, the loop requests exactly the
offsets 500*(k+i) for i = 0..n in order and returns that page's error with
no accumulated items in the result. -/
theorem fetch_all_go_err {α ε : Type} (fetch : Int → Except ε (Page α))
    (pages : Nat → Page α) (e : ε) :
    ∀ (n k fuel : Nat) (log : List Int) (acc : List α), n < fuel →
    (∀ i : Nat, i < n →
      fetch (500 * ((k + i : Nat) : Int)) = .ok (pages (k + i)) ∧
      500 * ((k + i + 1 : Nat) : Int) ≤ (pages (k + i)).range.total) →
    fetch (500 * ((k + n : Nat) : Int)) = .error e →
    fetch_all_customers_go fetch fuel (500 * ((k : Nat) : Int)) log acc =
      (log.reverse ++
        (List.range (n + 1)).map (fun i => 500 * ((k + i : Nat) : Int)),
       .error e) := by
  intro n
  induction n with
  | zero =>
    intro k fuel log acc hfuel hok herr
    obtain ⟨f, rfl⟩ : ∃ f, fuel = f + 1 := ⟨fuel - 1, by omega⟩
    have h0 : fetch (500 * ((k : Nat) : Int)) = .error e := by
      simpa using herr
    have hr1 : List.range 1 = [0] := rfl
    simp [fetch_all_customers_go, h0, hr1]
  | succ n ih =>
    intro k fuel log acc hfuel hok herr
    obtain ⟨f, rfl⟩ : ∃ f, fuel = f + 1 := ⟨fuel - 1, by omega⟩
    have h0 : fetch (500 * ((k : Nat) : Int)) = .ok (pages k) := by
      have := (hok 0 (Nat.succ_pos n)).1
      simpa using this
    have hle : 500 * ((k : Nat) : Int) + 500 ≤ (pages k).range.total := by
      have h := (hok 0 (Nat.succ_pos n)).2
      simp only [Nat.add_zero] at h
      push_cast at h
      linarith
    have hnotgt : ¬ 500 * ((k : Nat) : Int) + 500 > (pages k).range.total :=
      not_lt.mpr hle
    have hnext : (500 : Int) * ((k : Nat) : Int) + 500 =
        500 * (((k + 1 : Nat)) : Int) := by
      push_cast
      ring
    have hok' : ∀ i : Nat, i < n →
        fetch (500 * ((k + 1 + i : Nat) : Int)) = .ok (pages (k + 1 + i)) ∧
        500 * ((k + 1 + i + 1 : Nat) : Int) ≤
          (pages (k + 1 + i)).range.total := by
      intro i hi
      have e1 : k + 1 + i = k + (i + 1) := by omega
      have e2 : k + 1 + i + 1 = k + (i + 1) + 1 := by omega
      rw [e2, e1]
      exact hok (i + 1) (by omega)
    have herr' : fetch (500 * ((k + 1 + n : Nat) : Int)) = .error e := by
      have e1 : k + 1 + n = k + (n + 1) := by omega
      rw [e1]
      exact herr
    have ihh := ih (k + 1) f (500 * ((k : Nat) : Int) :: log)
      (acc ++ (pages k).items) (by omega) hok' herr'
    simp only [fetch_all_customers_go, h0, hnotgt, if_false]
    rw [← hnext] at ihh
    rw [ihh,
      range_shift_map (fun j => (500 : Int) * ((j : Nat) : Int)) k (n + 1)]
    simp

/-- C2: for every server (any number of pages, any reported totals) and
enough fuel, fetch-all issues list-customer calls at the offsets 0, 500,
1000, ... in order, advancing by 500 exactly while the offset does not
exceed the latest page's reported total, and accumulates the pages' items
in server order; and for every server whose fetch fails at any page, the
whole operation returns that page's error, with the items of the
already-fetched pages discarded rather than returned. -/
theorem c2_fetch_all_pagination {α ε : Type}
    (fetch g : Int → Except ε (Page α)) (pages : Nat → Page α)
    (n fuel : Nat) (e : ε) (hfuel : n < fuel) :
    ((∀ i : Nat, i ≤ n → fetch (500 * (i : Int)) = .ok (pages i)) →
     (∀ i : Nat, i < n → 500 * ((i : Int) + 1) ≤ (pages i).range.total) →
     500 * ((n : Int) + 1) > (pages n).range.total →
     fetch_all_customers fetch fuel =
       ((List.range (n + 1)).map (fun i : Nat => 500 * (i : Int)),
        .ok (((List.range (n + 1)).map (fun i => (pages i).items)).flatten))) ∧
    ((∀ i : Nat, i < n → g (500 * (i : Int)) = .ok (pages i) ∧
        500 * ((i : Int) + 1) ≤ (pages i).range.total) →
     g (500 * (n : Int)) = .error e →
     fetch_all_customers g fuel =
       ((List.range (n + 1)).map (fun i : Nat => 500 * (i : Int)), .error e)) := by
  have e1 : (fun i : Nat => (500 : Int) * ((0 + i : Nat) : Int)) =
      (fun i : Nat => (500 : Int) * ((i : Nat) : Int)) := by
    funext i
    rw [Nat.zero_add]
  have e2 : (fun i : Nat => (pages (0 + i)).items) =
      (fun i : Nat => (pages i).items) := by
    funext i
    rw [Nat.zero_add]
  have h00 : (0 : Int) = 500 * ((0 : Nat) : Int) := by norm_num
  constructor
  · intro hok hcont hstop
    have hok' : ∀ i : Nat, i ≤ n →
        fetch (500 * ((0 + i : Nat) : Int)) = .ok (pages (0 + i)) := by
      intro i hi
      simpa using hok i hi
    have hcont' : ∀ i : Nat, i < n →
        500 * ((0 + i + 1 : Nat) : Int) ≤ (pages (0 + i)).range.total := by
      intro i hi
      have := hcont i hi
      push_cast
      simpa using this
    have hstop' : 500 * ((0 + n + 1 : Nat) : Int) >
        (pages (0 + n)).range.total := by
      have := hstop
      push_cast
      simpa using this
    have h := fetch_all_go_ok fetch pages n 0 fuel [] [] hfuel hok' hcont'
      hstop'
    rw [fetch_all_customers, h00, h, e1, e2]
    simp only [List.reverse_nil, List.nil_append]
  · intro hok herr
    have hok' : ∀ i : Nat, i < n →
        g (500 * ((0 + i : Nat) : Int)) = .ok (pages (0 + i)) ∧
        500 * ((0 + i + 1 : Nat) : Int) ≤ (pages (0 + i)).range.total := by
      intro i hi
      obtain ⟨ha, hb⟩ := hok i hi
      refine ⟨by simpa using ha, ?_⟩
      push_cast
      simpa using hb
    have herr' : g (500 * ((0 + n : Nat) : Int)) = .error e := by
      simpa using herr
    have h := fetch_all_go_err g pages e n 0 fuel [] [] hfuel hok' herr'
    rw [fetch_all_customers, h00, h, e1]
    simp only [List.reverse_nil, List.nil_append]

/-- First concrete page (offset 0) for the C2 witness scenario. -/
def c2PageA : Page Nat := ⟨⟨0, 500, 1200⟩, List.range 500⟩

/-- Second concrete page (offset 500) for the C2 witness scenario. -/
def c2PageB : Page Nat := ⟨⟨500, 500, 1200⟩, List.range 500⟩

/-- Third concrete page (offset 1000) for the C2 witness scenario. -/
def c2PageC : Page Nat := ⟨⟨1000, 500, 1200⟩, List.range 200⟩

/-- The three pages of the total=1200 witness scenario, by page index. -/
def c2Pages : Nat → Page Nat := fun i =>
  if i = 0 then c2PageA else if i = 1 then c2PageB else c2PageC

/-- A concrete server for the C2 witness where all three pages succeed. -/
def c2FetchOk : Int → Except Nat (Page Nat) := fun o =>
  if o = 0 then .ok c2PageA else if o = 500 then .ok c2PageB else .ok c2PageC

/-- A concrete server for the C2 witness where the second page fails. -/
def c2FetchFail : Int → Except Nat (Page Nat) := fun o =>
  if o = 0 then .ok c2PageA else .error 7

/-- Witness for C2 in the concrete total=1200 scenario: three requests at
offsets 0, 500, 1000 aggregating 1200 items, and a failing second page
aborting with its error after the requests at offsets 0 and 500. -/
theorem c2_pagination_witness :
    fetch_all_customers c2FetchOk 3 =
      ((List.range 3).map (fun i : Nat => 500 * (i : Int)),
       .ok (((List.range 3).map (fun i => (c2Pages i).items)).flatten)) ∧
    ((List.range 3).map (fun i : Nat => 500 * (i : Int))) = [0, 500, 1000] ∧
    (((List.range 3).map (fun i => (c2Pages i).items)).flatten).length =
      1200 ∧
    fetch_all_customers c2FetchFail 2 =
      ((List.range 2).map (fun i : Nat => 500 * (i : Int)), .error 7) ∧
    ((List.range 2).map (fun i : Nat => 500 * (i : Int))) = [0, 500] := by
  refine ⟨?_, by decide, ?_, ?_, by decide⟩
  · exact (c2_fetch_all_pagination c2FetchOk c2FetchFail c2Pages 2 3 7
      (by omega)).1
      (by intro i hi; interval_cases i <;> rfl)
      (by intro i hi; interval_cases i <;> decide)
      (by decide)
  · have hr : List.range 3 = [0, 1, 2] := rfl
    rw [hr]
    simp [c2Pages, c2PageA, c2PageB, c2PageC, List.flatten,
      List.length_append, List.length_range]
  · exact (c2_fetch_all_pagination c2FetchOk c2FetchFail c2Pages 1 2 7
      (by omega)).2
      (by intro i hi; interval_cases i <;> exact ⟨rfl, by decide⟩)
      rfl

/-! ## JSON wire format of NewCustomerRequest (src/provisioning.rs)

The serde derives on the write-model structs are embedded over a small JSON
value type.  Field names are the camelCase renames; a field with
`skip_serializing_if = "Option::is_none"` contributes no entry when absent;
an Option field without that attribute (only `FirstAdminUser.notify_user`)
always contributes an entry, serializing `None` as an explicit null.
Deserialization is by field name: a missing or null entry of an Option
field is `None`, required fields and wrong shapes fail. -/

/-- A JSON value. -/
inductive Json where
  | null
  | bool (b : Bool)
  | num (n : Int)
  | str (s : String)
  | arr (xs : List Json)
  | obj (kvs : List (String × Json))

/-- Whether a JSON value is the explicit null. -/
def isNull : Json → Bool
  | .null => true
  | _ => false

/-- The serialized entries of an optional field with
`skip_serializing_if = "Option::is_none"`: absent fields are omitted. -/
def optField (k : String) (v : Option Json) : List (String × Json) :=
  match v with
  | some j => [(k, j)]
  | none => []

/-- The serialization of a plain `Option<bool>` field without a skip
attribute (serde serializes `None` as null). -/
def encOptBool : Option Bool → Json
  | some b => .bool b
  | none => .null

/-- Field access on a JSON object. -/
def jsonField : Json → String → Option Json
  | .obj kvs, k => lookupKey kvs k
  | _, _ => none

/-- Decode a JSON string. -/
def getStr : Json → Option String
  | .str s => some s
  | _ => none

/-- Decode a JSON number (i64 fields are embedded as Int). -/
def getNum : Json → Option Int
  | .num n => some n
  | _ => none

/-- Decode a JSON boolean. -/
def getBool : Json → Option Bool
  | .bool b => some b
  | _ => none

/-- Decode a JSON array. -/
def getArr : Json → Option (List Json)
  | .arr xs => some xs
  | _ => none

/-- Serde's decoding of an `Option<T>` field from its lookup result:
missing or null is `None`, otherwise the payload decode must succeed. -/
def getOpt {α : Type} (dec : Json → Option α) : Option Json → Option (Option α)
  | none => some none
  | some j => if isNull j then some none else (dec j).map some

/-- Decode every element of a JSON array. -/
def decodeList {α : Type} (dec : Json → Option α) : List Json → Option (List α)
  | [] => some []
  | j :: js =>
    match dec j with
    | some a => (decodeList dec js).map (fun l => a :: l)
    | none => none

/-- `KeyValueEntry` (src/provisioning.rs, lines 57-61). -/
structure KeyValueEntry where
  key : String
  value : String
deriving DecidableEq, Repr

/-- `CustomerAttributes` (src/provisioning.rs, lines 62-77). -/
structure CustomerAttributes where
  items : List KeyValueEntry
deriving DecidableEq, Repr

/-- `UserAuthData` (src/provisioning.rs, lines 224-238); every Option field
carries the skip attribute. -/
structure UserAuthData where
  method : String
  login : Option String
  password : Option String
  must_change_password : Option Bool
  ad_config_id : Option Int
  oid_config_id : Option Int
deriving DecidableEq, Repr

/-- `FirstAdminUser` (src/provisioning.rs, lines 176-192); every Option
field carries the skip attribute except `notify_user` (line 187). -/
structure FirstAdminUser where
  first_name : String
  last_name : String
  user_name : Option String
  auth_data : Option UserAuthData
  receiver_language : Option String
  notify_user : Option Bool
  email : Option String
  phone : Option String
deriving DecidableEq, Repr

/-- `NewCustomerRequest` (src/provisioning.rs, lines 240-259); the four
required fields first, then the six skip-attributed Option fields. -/
structure NewCustomerRequest where
  customer_contract_type : String
  quota_max : Int
  user_max : Int
  first_admin_user : FirstAdminUser
  company_name : Option String
  trial_days : Option Int
  is_locked : Option Bool
  customer_attributes : Option CustomerAttributes
  provider_customer_id : Option String
  webhooks_max : Option Int
deriving DecidableEq, Repr

/-- `FirstAdminUser::new_local` (src/provisioning.rs, lines 194-222):
basic auth data with must-change-password, no notify_user value. -/
def FirstAdminUser.new_local (first_name last_name : String)
    (user_name : Option String) (email : String)
    (receiver_language : Option String) : FirstAdminUser :=
  let auth_data : UserAuthData := ⟨"basic", none, none, some true, none, none⟩
  ⟨first_name, last_name, user_name, some auth_data, receiver_language,
    none, some email, none⟩

/-- `NewCustomerRequest::new` (src/provisioning.rs, lines 261-287). -/
def NewCustomerRequest.new (customer_contract_type : String)
    (quota_max user_max : Int) (first_admin_user : FirstAdminUser)
    (company_name : Option String) (trial_days : Option Int)
    (is_locked : Option Bool) (customer_attributes : Option CustomerAttributes)
    (provider_customer_id : Option String) (webhooks_max : Option Int) :
    NewCustomerRequest :=
  ⟨customer_contract_type, quota_max, user_max, first_admin_user,
    company_name, trial_days, is_locked, customer_attributes,
    provider_customer_id, webhooks_max⟩

/-- Serialization of `KeyValueEntry` (serde derive, no rename). -/
def KeyValueEntry.toJson (e : KeyValueEntry) : Json :=
  .obj [("key", Json.str e.key), ("value", Json.str e.value)]

/-- Serialization of `CustomerAttributes` (serde derive). -/
def CustomerAttributes.toJson (ca : CustomerAttributes) : Json :=
  .obj [("items", Json.arr (ca.items.map KeyValueEntry.toJson))]

/-- Serialization of `UserAuthData` (serde derive, camelCase, all Option
fields skip-attributed). -/
def UserAuthData.toJson (u : UserAuthData) : Json :=
  .obj (("method", Json.str u.method) ::
    (optField "login" (u.login.map Json.str) ++
    (optField "password" (u.password.map Json.str) ++
    (optField "mustChangePassword" (u.must_change_password.map Json.bool) ++
    (optField "adConfigId" (u.ad_config_id.map Json.num) ++
    optField "oidConfigId" (u.oid_config_id.map Json.num))))))

/-- Serialization of `FirstAdminUser` (serde derive, camelCase): every
Option field is omitted when absent except `notifyUser`, which is always
emitted, as null when absent. -/
def FirstAdminUser.toJson (u : FirstAdminUser) : Json :=
  .obj (("firstName", Json.str u.first_name) ::
    ("lastName", Json.str u.last_name) ::
    (optField "userName" (u.user_name.map Json.str) ++
    (optField "authData" (u.auth_data.map UserAuthData.toJson) ++
    (optField "receiverLanguage" (u.receiver_language.map Json.str) ++
    (("notifyUser", encOptBool u.notify_user) ::
    (optField "email" (u.email.map Json.str) ++
    optField "phone" (u.phone.map Json.str)))))))

/-- Serialization of `NewCustomerRequest` (serde derive, camelCase, all
Option fields skip-attributed). -/
def NewCustomerRequest.toJson (r : NewCustomerRequest) : Json :=
  .obj (("customerContractType", Json.str r.customer_contract_type) ::
    ("quotaMax", Json.num r.quota_max) ::
    ("userMax", Json.num r.user_max) ::
    ("firstAdminUser", FirstAdminUser.toJson r.first_admin_user) ::
    (optField "companyName" (r.company_name.map Json.str) ++
    (optField "trialDays" (r.trial_days.map Json.num) ++
    (optField "isLocked" (r.is_locked.map Json.bool) ++
    (optField "customerAttributes"
      (r.customer_attributes.map CustomerAttributes.toJson) ++
    (optField "providerCustomerId"
      (r.provider_customer_id.map Json.str) ++
    optField "webhooksMax" (r.webhooks_max.map Json.num)))))))

/-- Deserialization of `KeyValueEntry`. -/
def KeyValueEntry.fromJson : Json → Option KeyValueEntry
  | .obj kvs => do
    let key ← (lookupKey kvs "key").bind getStr
    let value ← (lookupKey kvs "value").bind getStr
    pure ⟨key, value⟩
  | _ => none

/-- Deserialization of `CustomerAttributes`. -/
def CustomerAttributes.fromJson : Json → Option CustomerAttributes
  | .obj kvs => do
    let itemsJson ← (lookupKey kvs "items").bind getArr
    let items ← decodeList KeyValueEntry.fromJson itemsJson
    pure ⟨items⟩
  | _ => none

/-- Deserialization of `UserAuthData`. -/
def UserAuthData.fromJson : Json → Option UserAuthData
  | .obj kvs => do
    let method ← (lookupKey kvs "method").bind getStr
    let login ← getOpt getStr (lookupKey kvs "login")
    let password ← getOpt getStr (lookupKey kvs "password")
    let mcp ← getOpt getBool (lookupKey kvs "mustChangePassword")
    let ad ← getOpt getNum (lookupKey kvs "adConfigId")
    let oid ← getOpt getNum (lookupKey kvs "oidConfigId")
    pure ⟨method, login, password, mcp, ad, oid⟩
  | _ => none

/-- Deserialization of `FirstAdminUser`. -/
def FirstAdminUser.fromJson : Json → Option FirstAdminUser
  | .obj kvs => do
    let fn ← (lookupKey kvs "firstName").bind getStr
    let ln ← (lookupKey kvs "lastName").bind getStr
    let un ← getOpt getStr (lookupKey kvs "userName")
    let ad ← getOpt UserAuthData.fromJson (lookupKey kvs "authData")
    let rl ← getOpt getStr (lookupKey kvs "receiverLanguage")
    let nu ← getOpt getBool (lookupKey kvs "notifyUser")
    let em ← getOpt getStr (lookupKey kvs "email")
    let ph ← getOpt getStr (lookupKey kvs "phone")
    pure ⟨fn, ln, un, ad, rl, nu, em, ph⟩
  | _ => none

/-- Deserialization of `NewCustomerRequest`. -/
def NewCustomerRequest.fromJson : Json → Option NewCustomerRequest
  | .obj kvs => do
    let cct ← (lookupKey kvs "customerContractType").bind getStr
    let qm ← (lookupKey kvs "quotaMax").bind getNum
    let um ← (lookupKey kvs "userMax").bind getNum
    let fau ← (lookupKey kvs "firstAdminUser").bind FirstAdminUser.fromJson
    let cn ← getOpt getStr (lookupKey kvs "companyName")
    let td ← getOpt getNum (lookupKey kvs "trialDays")
    let il ← getOpt getBool (lookupKey kvs "isLocked")
    let ca ← getOpt CustomerAttributes.fromJson
      (lookupKey kvs "customerAttributes")
    let pci ← getOpt getStr (lookupKey kvs "providerCustomerId")
    let wm ← getOpt getNum (lookupKey kvs "webhooksMax")
    pure ⟨cct, qm, um, fau, cn, td, il, ca, pci, wm⟩
  | _ => none

/-- The explicit null is null. -/
theorem isNull_null : isNull Json.null = true :=
  rfl

/-- A JSON string is not the explicit null. -/
theorem isNull_str (s : String) : isNull (Json.str s) = false :=
  rfl

/-- A JSON boolean is not the explicit null. -/
theorem isNull_bool (b : Bool) : isNull (Json.bool b) = false :=
  rfl

/-- A JSON number is not the explicit null. -/
theorem isNull_num (n : Int) : isNull (Json.num n) = false :=
  rfl

/-- A skip-attributed string field decodes back to itself. -/
theorem getOpt_str (o : Option String) :
    getOpt getStr (o.map Json.str) = some o := by
  cases o <;> rfl

/-- A skip-attributed boolean field decodes back to itself. -/
theorem getOpt_bool (o : Option Bool) :
    getOpt getBool (o.map Json.bool) = some o := by
  cases o <;> rfl

/-- A skip-attributed numeric field decodes back to itself. -/
theorem getOpt_num (o : Option Int) :
    getOpt getNum (o.map Json.num) = some o := by
  cases o <;> rfl

/-- KeyValueEntry round-trips. -/
theorem kve_roundtrip (e : KeyValueEntry) :
    KeyValueEntry.fromJson (KeyValueEntry.toJson e) = some e :=
  rfl

/-- A serialized list of KeyValueEntry decodes back to itself. -/
theorem decodeList_kve (xs : List KeyValueEntry) :
    decodeList KeyValueEntry.fromJson (xs.map KeyValueEntry.toJson) =
      some xs := by
  induction xs with
  | nil => rfl
  | cons x xs ih => simp [decodeList, kve_roundtrip, ih]

/-- CustomerAttributes round-trips. -/
theorem ca_roundtrip (ca : CustomerAttributes) :
    CustomerAttributes.fromJson (CustomerAttributes.toJson ca) = some ca := by
  simp [CustomerAttributes.toJson, CustomerAttributes.fromJson, lookupKey,
    getArr, decodeList_kve]

/-- A serialized CustomerAttributes value is never the explicit null. -/
theorem isNull_ca (ca : CustomerAttributes) :
    isNull (CustomerAttributes.toJson ca) = false :=
  rfl

/-- UserAuthData round-trips. -/
theorem uad_roundtrip (u : UserAuthData) :
    UserAuthData.fromJson (UserAuthData.toJson u) = some u := by
  obtain ⟨m, l, p, mc, ad, oid⟩ := u
  cases l <;> cases p <;> cases mc <;> cases ad <;> cases oid <;> rfl

/-- A serialized UserAuthData value is never the explicit null. -/
theorem isNull_uad (u : UserAuthData) :
    isNull (UserAuthData.toJson u) = false :=
  rfl

/-- An optional nested UserAuthData field decodes back to itself. -/
theorem getOpt_uad (o : Option UserAuthData) :
    getOpt UserAuthData.fromJson (o.map UserAuthData.toJson) = some o := by
  cases o with
  | none => rfl
  | some u => simp [getOpt, isNull_uad, uad_roundtrip]

/-- An optional nested CustomerAttributes field decodes back to itself. -/
theorem getOpt_ca (o : Option CustomerAttributes) :
    getOpt CustomerAttributes.fromJson (o.map CustomerAttributes.toJson) =
      some o := by
  cases o with
  | none => rfl
  | some ca => simp [getOpt, isNull_ca, ca_roundtrip]

/-- The always-emitted notifyUser entry decodes back to itself. -/
theorem getOpt_notify (o : Option Bool) :
    getOpt getBool (some (encOptBool o)) = some o := by
  cases o <;> rfl

/-- FirstAdminUser round-trips. -/
theorem fau_roundtrip (u : FirstAdminUser) :
    FirstAdminUser.fromJson (FirstAdminUser.toJson u) = some u := by
  obtain ⟨fn, ln, un, ad, rl, nu, em, ph⟩ := u
  cases un <;> cases rl <;> cases nu <;> cases em <;> cases ph <;>
    cases ad <;>
    simp [FirstAdminUser.toJson, FirstAdminUser.fromJson, lookupKey,
      optField, getOpt, isNull_null, isNull_str, isNull_bool, getStr, getBool, encOptBool,
      isNull_uad, uad_roundtrip]

/-- A serialized FirstAdminUser value is never the explicit null. -/
theorem isNull_fau (u : FirstAdminUser) :
    isNull (FirstAdminUser.toJson u) = false :=
  rfl

/-- NewCustomerRequest round-trips. -/
theorem ncr_roundtrip (r : NewCustomerRequest) :
    NewCustomerRequest.fromJson (NewCustomerRequest.toJson r) = some r := by
  obtain ⟨cct, qm, um, fau, cn, td, il, ca, pci, wm⟩ := r
  cases cn <;> cases td <;> cases il <;> cases pci <;> cases wm <;>
    cases ca <;>
    simp [NewCustomerRequest.toJson, NewCustomerRequest.fromJson, lookupKey,
      optField, getOpt, isNull_null, isNull_str, isNull_bool, isNull_num, getStr, getNum,
      getBool, isNull_fau, fau_roundtrip, isNull_ca, ca_roundtrip]

/-- The serialized entries of the six optional NewCustomerRequest fields
are exactly the present fields. -/
theorem ncr_field_lookups (r : NewCustomerRequest) :
    jsonField (NewCustomerRequest.toJson r) "companyName" =
      r.company_name.map Json.str ∧
    jsonField (NewCustomerRequest.toJson r) "trialDays" =
      r.trial_days.map Json.num ∧
    jsonField (NewCustomerRequest.toJson r) "isLocked" =
      r.is_locked.map Json.bool ∧
    jsonField (NewCustomerRequest.toJson r) "customerAttributes" =
      r.customer_attributes.map CustomerAttributes.toJson ∧
    jsonField (NewCustomerRequest.toJson r) "providerCustomerId" =
      r.provider_customer_id.map Json.str ∧
    jsonField (NewCustomerRequest.toJson r) "webhooksMax" =
      r.webhooks_max.map Json.num := by
  obtain ⟨cct, qm, um, fau, cn, td, il, ca, pci, wm⟩ := r
  cases cn <;> cases td <;> cases il <;> cases ca <;> cases pci <;>
    cases wm <;> exact ⟨rfl, rfl, rfl, rfl, rfl, rfl⟩

/-- The serialized entries of the FirstAdminUser option fields: the five
skip-attributed fields are exactly the present ones, while notifyUser is
always an entry, null when the field is absent. -/
theorem fau_field_lookups (u : FirstAdminUser) :
    jsonField (FirstAdminUser.toJson u) "userName" =
      u.user_name.map Json.str ∧
    jsonField (FirstAdminUser.toJson u) "authData" =
      u.auth_data.map UserAuthData.toJson ∧
    jsonField (FirstAdminUser.toJson u) "receiverLanguage" =
      u.receiver_language.map Json.str ∧
    jsonField (FirstAdminUser.toJson u) "email" = u.email.map Json.str ∧
    jsonField (FirstAdminUser.toJson u) "phone" = u.phone.map Json.str ∧
    jsonField (FirstAdminUser.toJson u) "notifyUser" =
      some (encOptBool u.notify_user) := by
  obtain ⟨fn, ln, un, ad, rl, nu, em, ph⟩ := u
  cases un <;> cases ad <;> cases rl <;> cases nu <;> cases em <;>
    cases ph <;> exact ⟨rfl, rfl, rfl, rfl, rfl, rfl⟩

/-- The serialized entries of the five UserAuthData option fields are
exactly the present ones. -/
theorem uad_field_lookups (u : UserAuthData) :
    jsonField (UserAuthData.toJson u) "login" = u.login.map Json.str ∧
    jsonField (UserAuthData.toJson u) "password" = u.password.map Json.str ∧
    jsonField (UserAuthData.toJson u) "mustChangePassword" =
      u.must_change_password.map Json.bool ∧
    jsonField (UserAuthData.toJson u) "adConfigId" =
      u.ad_config_id.map Json.num ∧
    jsonField (UserAuthData.toJson u) "oidConfigId" =
      u.oid_config_id.map Json.num := by
  obtain ⟨m, l, p, mc, ad, oid⟩ := u
  cases l <;> cases p <;> cases mc <;> cases ad <;> cases oid <;>
    exact ⟨rfl, rfl, rfl, rfl, rfl⟩

/-! ## C7: round-trip and optional-field omission -/

/-- C7 counterexample: a NewCustomerRequest built through the source's own
constructors (`FirstAdminUser::new_local` leaves notify_user absent)
serializes the absent optional field notify_user as an explicit null on
the wire, contradicting the claim that absent optional fields never appear
as explicit nulls. -/
theorem c7_counterexample :
    (FirstAdminUser.new_local "Ada" "Lovelace" none "ada@b.c" none).notify_user =
      none ∧
    jsonField
      (NewCustomerRequest.toJson
        (NewCustomerRequest.new "pay" 1000 10
          (FirstAdminUser.new_local "Ada" "Lovelace" none "ada@b.c" none)
          none none none none none none))
      "firstAdminUser" =
      some (FirstAdminUser.toJson
        (FirstAdminUser.new_local "Ada" "Lovelace" none "ada@b.c" none)) ∧
    jsonField
      (FirstAdminUser.toJson
        (FirstAdminUser.new_local "Ada" "Lovelace" none "ada@b.c" none))
      "notifyUser" = some Json.null :=
  ⟨rfl, rfl, rfl⟩

/-- C7 amended: serializing then deserializing a NewCustomerRequest
reproduces exactly the fields that were present, and every absent optional
field is omitted from the wire — except `FirstAdminUser.notify_user`
(the one Option field without a skip attribute), which is always emitted
and appears as an explicit null when absent. -/
theorem c7_amended_roundtrip (r : NewCustomerRequest) (u : UserAuthData) :
    NewCustomerRequest.fromJson (NewCustomerRequest.toJson r) = some r ∧
    jsonField (NewCustomerRequest.toJson r) "companyName" =
      r.company_name.map Json.str ∧
    jsonField (NewCustomerRequest.toJson r) "trialDays" =
      r.trial_days.map Json.num ∧
    jsonField (NewCustomerRequest.toJson r) "isLocked" =
      r.is_locked.map Json.bool ∧
    jsonField (NewCustomerRequest.toJson r) "customerAttributes" =
      r.customer_attributes.map CustomerAttributes.toJson ∧
    jsonField (NewCustomerRequest.toJson r) "providerCustomerId" =
      r.provider_customer_id.map Json.str ∧
    jsonField (NewCustomerRequest.toJson r) "webhooksMax" =
      r.webhooks_max.map Json.num ∧
    jsonField (FirstAdminUser.toJson r.first_admin_user) "userName" =
      r.first_admin_user.user_name.map Json.str ∧
    jsonField (FirstAdminUser.toJson r.first_admin_user) "authData" =
      r.first_admin_user.auth_data.map UserAuthData.toJson ∧
    jsonField (FirstAdminUser.toJson r.first_admin_user) "receiverLanguage" =
      r.first_admin_user.receiver_language.map Json.str ∧
    jsonField (FirstAdminUser.toJson r.first_admin_user) "email" =
      r.first_admin_user.email.map Json.str ∧
    jsonField (FirstAdminUser.toJson r.first_admin_user) "phone" =
      r.first_admin_user.phone.map Json.str ∧
    jsonField (FirstAdminUser.toJson r.first_admin_user) "notifyUser" =
      some (encOptBool r.first_admin_user.notify_user) ∧
    jsonField (UserAuthData.toJson u) "login" = u.login.map Json.str ∧
    jsonField (UserAuthData.toJson u) "password" = u.password.map Json.str ∧
    jsonField (UserAuthData.toJson u) "mustChangePassword" =
      u.must_change_password.map Json.bool ∧
    jsonField (UserAuthData.toJson u) "adConfigId" =
      u.ad_config_id.map Json.num ∧
    jsonField (UserAuthData.toJson u) "oidConfigId" =
      u.oid_config_id.map Json.num := by
  obtain ⟨h1, h2, h3, h4, h5, h6⟩ := ncr_field_lookups r
  obtain ⟨g1, g2, g3, g4, g5, g6⟩ := fau_field_lookups r.first_admin_user
  obtain ⟨w1, w2, w3, w4, w5⟩ := uad_field_lookups u
  exact ⟨ncr_roundtrip r, h1, h2, h3, h4, h5, h6, g1, g2, g3, g4, g5, g6,
    w1, w2, w3, w4, w5⟩
